import Mathlib

/-!
Shallow embedding of the k8s worker pool of leaf-hub-spec-sync
(pkg/controller/k8s-worker-pool/k8s_worker_pool.go and k8s_job.go).

The dispatcher state (`K8sWorkerPool`) is modelled as an explicit record and
each Go method becomes a state-passing Lean function that additionally emits a
trace of observable events (log lines, lock acquire/release, queue operations,
worker starts).  Queues (Go channels) are modelled as lists of jobs; the Go
map `impersonationWorkersQueues` is an association list; the mutex
`impersonationWorkersLock` is a boolean `lockHeld` — `Lock()` on a held mutex
blocks forever, which in this sequential model is the `blocked` outcome.
Collaborators that live outside the modelled core (the rbac impersonation
manager, the worker constructors in k8s_worker.go) are oracles recorded in the
state or passed as parameters.
-/

namespace LeafHub

/-- An opaque rest.Config value (only its identity matters to the pool). -/
structure RestConfig where
  cfgId : Nat
deriving DecidableEq, Repr

/-- An opaque context.Context value; Go's nil context is `Option.none` at use sites. -/
structure Ctx where
  ctxId : Nat
deriving DecidableEq, Repr

/-- Modelled from the spec: a backend session ("k8s client") as produced either
from the shared kube config (default workers) or by impersonating a user
identity (lane workers).  The rbac package is not under src/, so the client is
opaque data tagged by its provenance. -/
inductive K8sClient where
  | fromConfig (cfg : RestConfig)
  | impersonated (identity : String)
deriving DecidableEq, Repr

/-- Which queue a worker is bound to: the shared default jobs queue or the
lane queue of one impersonated identity. -/
inductive QueueRef where
  | defaultQueue
  | laneQueue (identity : String)
deriving DecidableEq, Repr

/-- K8sJob (k8s_job.go): an opaque payload plus an opaque handler function,
both represented by tags since the pool never inspects them. -/
structure K8sJob where
  obj : Nat
  handlerFunc : Nat
deriving DecidableEq, Repr

/-- Modelled from the spec: a worker (k8s_worker.go is not under src/) is a
task bound to one backend session and one queue; the pool only constructs and
starts workers, so a worker is its id, its session and its queue binding. -/
structure K8sWorker where
  workerID : Nat
  client : K8sClient
  queue : QueueRef
deriving DecidableEq, Repr

/-- Observable events emitted by the pool's operations, in program order. -/
inductive Event where
  | logError (msg : String)
  | enqueueDefault (j : K8sJob)
  | lockAcquire
  | lockRelease
  | impersonateCall (identity : String)
  | startWorker (w : K8sWorker) (c : Option Ctx)
  | enqueueLane (identity : String) (j : K8sJob)
  | waitDone
  | closeDefaultQueue
deriving DecidableEq, Repr

/-- Modelled from the spec: the rbac impersonation manager (pkg/controller/rbac
is not under src/) is the identity router plus session factory: it extracts a
user identity from a job payload (or fails), and produces an
identity-scoped client (or fails).  Both are oracle functions. -/
structure ImpersonationManager where
  getUserIdentity : Nat → Except String String
  impersonate : String → Except String K8sClient

/-- Modelled from the spec: `rbac.NoUserIdentity`, the sentinel returned by
identity extraction when the payload carries no impersonation annotation. -/
def NoUserIdentity : String := ""

/-- The K8sWorkerPool state (k8s_worker_pool.go).  `ctx` is `none` until
`Start` assigns it (Go zero value nil); Go channels are lists (a bounded
channel's content); the Go map is an association list; the mutex is the
boolean `lockHeld`. -/
structure PoolState where
  ctx : Option Ctx
  kubeConfig : RestConfig
  jobsQueue : List K8sJob
  jobsQueueClosed : Bool
  poolSize : Nat
  mgr : ImpersonationManager
  impersonationWorkersQueues : List (String × List K8sJob)
  lockHeld : Bool

/-- Go map read `m[k]`: first binding for `k`, if any. -/
def mapGet (m : List (String × α)) (k : String) : Option α :=
  List.lookup k m

/-- Go map write `m[k] = v`: bind `k` to `v`, dropping any older binding. -/
def mapSet (m : List (String × α)) (k : String) (v : α) : List (String × α) :=
  (k, v) :: m.filter (fun p => p.1 != k)

/-- Modelled from the spec: `newK8sWorkerWithClient` (k8s_worker.go, not under
src/) binds the given client and queue into a worker with the given id. -/
def newK8sWorkerWithClient (i : Nat) (client : K8sClient) (q : QueueRef) : K8sWorker :=
  { workerID := i, client := client, queue := q }

/-- createUserWorker (k8s_worker_pool.go lines 131-144): ask the impersonation
manager for a client scoped to `userIdentity`; on failure return the wrapped
error (state untouched); on success make the lane queue, start a worker on it
with `pool.ctx`, and insert the queue into the lane map.  The event list
records the factory call and the worker start. -/
def createUserWorker (pool : PoolState) (userIdentity : String) :
    Except String PoolState × List Event :=
  match pool.mgr.impersonate userIdentity with
  | .error e => (.error ("failed to impersonate - " ++ e), [.impersonateCall userIdentity])
  | .ok k8sClient =>
      let workerQueue : List K8sJob := []
      let worker := newK8sWorkerWithClient 1 k8sClient (QueueRef.laneQueue userIdentity)
      (.ok { pool with
               impersonationWorkersQueues :=
                 mapSet pool.impersonationWorkersQueues userIdentity workerQueue },
       [.impersonateCall userIdentity, .startWorker worker pool.ctx])

/-- Outcome of one RunAsync call: either the call returned (`done`), or it is
blocked forever (`blocked`) — on `Lock()` of a mutex that was left held, or on
a send to the nil channel a missing map key would yield.  Both carry the state
and the events up to that point. -/
inductive RunOutcome where
  | done (s : PoolState) (tr : List Event)
  | blocked (s : PoolState) (tr : List Event)

/-- The pool state after the call (or at the block point). -/
def RunOutcome.state : RunOutcome → PoolState
  | .done s _ => s
  | .blocked s _ => s

/-- The events emitted by the call (up to the block point). -/
def RunOutcome.trace : RunOutcome → List Event
  | .done _ tr => tr
  | .blocked _ tr => tr

/-- Whether the call blocked forever. -/
def RunOutcome.isBlocked : RunOutcome → Bool
  | .done _ _ => false
  | .blocked _ _ => true

/-- RunAsync (k8s_worker_pool.go lines 103-129), line by line:
extract the user identity (on error: log, return); if it is the sentinel,
send the job on the default jobs queue and return; otherwise `Lock()` the
lane mutex (blocking forever if it is already held), create the lane if
absent (on factory failure: log and return — note the source returns here
without `Unlock()`), read the lane queue out of the map, `Unlock()`, and only
then send the job on the lane queue. -/
def RunAsync (pool : PoolState) (job : K8sJob) : RunOutcome :=
  match pool.mgr.getUserIdentity job.obj with
  | .error _ => .done pool [.logError "failed to get user identity from obj"]
  | .ok userIdentity =>
    if userIdentity = NoUserIdentity then
      .done { pool with jobsQueue := pool.jobsQueue ++ [job] } [.enqueueDefault job]
    else if pool.lockHeld then
      .blocked pool []
    else
      let p1 := { pool with lockHeld := true }
      let created : Except String PoolState × List Event :=
        if (mapGet p1.impersonationWorkersQueues userIdentity).isSome then (.ok p1, [])
        else createUserWorker p1 userIdentity
      match created with
      | (.error _, evs) =>
          .done p1 (Event.lockAcquire :: evs ++ [.logError "failed to create user worker"])
      | (.ok p2, evs) =>
          match mapGet p2.impersonationWorkersQueues userIdentity with
          | none =>
              .blocked { p2 with lockHeld := false }
                (Event.lockAcquire :: evs ++ [.lockRelease])
          | some workerQueue =>
              .done { p2 with
                        lockHeld := false,
                        impersonationWorkersQueues :=
                          mapSet p2.impersonationWorkersQueues userIdentity
                            (workerQueue ++ [job]) }
                (Event.lockAcquire :: evs ++ [.lockRelease, .enqueueLane userIdentity job])

/-- Modelled from the spec: `newK8sWorker` (k8s_worker.go, not under src/)
builds a backend client from the shared kube config for default worker `i`
bound to queue `q`; building the client can fail (the startup-failure case).
The oracle `fail` gives the outcome of the i-th construction attempt. -/
def newK8sWorker (fail : Nat → Option String) (i : Nat) (cfg : RestConfig)
    (q : QueueRef) : Except String K8sWorker :=
  match fail i with
  | some e => .error e
  | none => .ok { workerID := i, client := .fromConfig cfg, queue := q }

/-- The `for i := 1; i <= pool.poolSize; i++` loop of Start, with `i` the Go
loop index and `r` the iterations left: construct default worker `i`
(returning the wrapped error on failure) and start it with the given context. -/
def startWorkersLoop (fail : Nat → Option String) (cfg : RestConfig) (ctx : Ctx)
    (i : Nat) : Nat → List Event × Option String
  | 0 => ([], none)
  | r + 1 =>
    match newK8sWorker fail i cfg QueueRef.defaultQueue with
    | .error e => ([], some ("failed to start k8s workers pool - " ++ e))
    | .ok w =>
        let rest := startWorkersLoop fail cfg ctx (i + 1) r
        (Event.startWorker w (some ctx) :: rest.1, rest.2)

/-- The events the Start loop emits when every construction succeeds: one
worker start per index, workers `i, i+1, ...` for `r` iterations, each bound
to a client from the shared config and to the default queue, started with the
given context. -/
def defaultStartEvents (cfg : RestConfig) (ctx : Ctx) (i : Nat) : Nat → List Event
  | 0 => []
  | r + 1 =>
      Event.startWorker { workerID := i, client := .fromConfig cfg, queue := .defaultQueue }
          (some ctx) ::
        defaultStartEvents cfg ctx (i + 1) r

/-- Start (k8s_worker_pool.go lines 83-101): spawn `poolSize` default workers
(aborting with the error if one fails to construct), assign `pool.ctx`, block
on `ctx.Done()`, then close the default jobs queue and return nil.  The result
is the final state, the event trace, and `none` for a nil return or `some e`
for an error return. -/
def Start (fail : Nat → Option String) (pool : PoolState) (ctx : Ctx) :
    PoolState × List Event × Option String :=
  let loopOut := startWorkersLoop fail pool.kubeConfig ctx 1 pool.poolSize
  match loopOut.2 with
  | some e => (pool, loopOut.1, some e)
  | none =>
      ({ pool with ctx := some ctx, jobsQueueClosed := true },
       loopOut.1 ++ [.waitDone, .closeDefaultQueue], none)

/-- defaultK8sClientsPoolSize (k8s_worker_pool.go line 18). -/
def defaultK8sClientsPoolSize : Int := 10

/-- Go's strconv.Atoi on a 64-bit platform: an optional sign followed by at
least one decimal digit, nothing else; values outside the int64 range are a
range error. -/
def goAtoi (s : String) : Except String Int :=
  let cs := s.toList
  let signDigits : Int × List Char :=
    match cs with
    | '+' :: r => (1, r)
    | '-' :: r => (-1, r)
    | r => (1, r)
  let ds := signDigits.2
  if ds.isEmpty then .error "invalid syntax"
  else if ds.all Char.isDigit then
    let n : Nat := ds.foldl (fun a c => a * 10 + (c.toNat - 48)) 0
    let v : Int := signDigits.1 * n
    if v < -9223372036854775808 ∨ 9223372036854775807 < v then .error "value out of range"
    else .ok v
  else .error "invalid syntax"

/-- readEnvVars (k8s_worker_pool.go lines 50-68): look up
K8S_CLIENTS_POOL_SIZE (`env` is the lookup result); if unset, or if Atoi
fails, or if the value is below 1, log a notice and return the default 10;
otherwise return the parsed value.  The second component is the log output. -/
def readEnvVars (env : Option String) : Int × List String :=
  match env with
  | none =>
      (defaultK8sClientsPoolSize,
       ["env variable K8S_CLIENTS_POOL_SIZE not found, using default value 10"])
  | some s =>
      match goAtoi s with
      | .error _ =>
          (defaultK8sClientsPoolSize,
           ["env var K8S_CLIENTS_POOL_SIZE invalid value: " ++ s ++ ", using default value 10"])
      | .ok value =>
          if value < 1 then
            (defaultK8sClientsPoolSize,
             ["env var K8S_CLIENTS_POOL_SIZE invalid value: " ++ s ++ ", using default value 10"])
          else (value, [])

/-- The pool as AddK8sWorkerPool builds it (k8s_worker_pool.go lines 21-48):
empty default queue, empty lane map, free lock, nil context. -/
def newK8sWorkerPool (cfg : RestConfig) (mgr : ImpersonationManager)
    (poolSize : Nat) : PoolState :=
  { ctx := none
    kubeConfig := cfg
    jobsQueue := []
    jobsQueueClosed := false
    poolSize := poolSize
    mgr := mgr
    impersonationWorkersQueues := []
    lockHeld := false }

/-- Whether a lane (map entry) exists for `identity`. -/
def laneExists (s : PoolState) (identity : String) : Bool :=
  (mapGet s.impersonationWorkersQueues identity).isSome

/-- Whether an event is the creation of the lane of `identity` (the start of
a worker bound to that lane's queue, which happens exactly when the map entry
is inserted). -/
def isLaneCreate (identity : String) : Event → Bool
  | .startWorker w _ => w.queue == QueueRef.laneQueue identity
  | _ => false

/-- How many times the lane of `identity` is created in a trace. -/
def laneCreateCount (identity : String) (tr : List Event) : Nat :=
  (tr.filter (isLaneCreate identity)).length

/-- Run a sequence of RunAsync calls, threading the state and concatenating
the traces (a blocked call contributes its partial trace and leaves the state
as it was at the block point). -/
def runList (s : PoolState) : List K8sJob → PoolState × List Event
  | [] => (s, [])
  | j :: rest =>
      let o := RunAsync s j
      let tail := runList o.state rest
      (tail.1, o.trace ++ tail.2)

/-- Scan of a trace checking that no enqueue onto a lane queue happens while
the lane lock is held; `held` counts currently-held acquisitions. -/
def noLaneEnqueueWhileHeld (held : Nat) : List Event → Bool
  | [] => true
  | .lockAcquire :: r => noLaneEnqueueWhileHeld (held + 1) r
  | .lockRelease :: r => noLaneEnqueueWhileHeld (held - 1) r
  | .enqueueLane _ _ :: r => held == 0 && noLaneEnqueueWhileHeld held r
  | _ :: r => noLaneEnqueueWhileHeld held r

/-- Scan of a trace checking that every enqueue onto a lane queue is preceded
by at least one release of the lane lock. -/
def releaseBeforeLaneEnqueue (seenRelease : Bool) : List Event → Bool
  | [] => true
  | .lockRelease :: r => releaseBeforeLaneEnqueue true r
  | .enqueueLane _ _ :: r => seenRelease && releaseBeforeLaneEnqueue seenRelease r
  | _ :: r => releaseBeforeLaneEnqueue seenRelease r

/-- The workers started in a trace, with the context each was started with. -/
def startedWorkers (tr : List Event) : List (K8sWorker × Option Ctx) :=
  tr.filterMap (fun e => match e with
    | .startWorker w c => some (w, c)
    | _ => none)

section MapLemmas

theorem mapGet_mapSet_self (m : List (String × α)) (k : String) (v : α) :
    mapGet (mapSet m k v) k = some v := by
  simp [mapGet, mapSet, List.lookup]

theorem lookup_filter_ne (m : List (String × α)) (k k' : String) (h : k' ≠ k) :
    List.lookup k' (m.filter (fun p => p.1 != k)) = List.lookup k' m := by
  induction m with
  | nil => rfl
  | cons hd tl ih =>
      cases hd with
      | mk a b =>
          by_cases hk : a = k
          · subst hk
            have hb : (a != a) = false := by simp
            have hko : (k' == a) = false := by simp [h]
            simp only [List.filter, hb, List.lookup, hko]
            exact ih
          · have hb : (a != k) = true := by simp [hk]
            simp only [List.filter, hb, List.lookup]
            cases hka : k' == a with
            | true => rfl
            | false => exact ih

theorem mapGet_mapSet_ne (m : List (String × α)) (k k' : String) (v : α)
    (h : k' ≠ k) : mapGet (mapSet m k v) k' = mapGet m k' := by
  have hne : (k' == k) = false := by simp [h]
  simp [mapGet, mapSet, List.lookup, hne, lookup_filter_ne m k k' h]

end MapLemmas

section Fixtures

/-- A concrete kube config for concrete runs. -/
def cfg0 : RestConfig := ⟨0⟩

/-- A concrete context for concrete runs. -/
def ctx0 : Ctx := ⟨7⟩

/-- Concrete manager: payload 0 carries identity "carol", payload 1 carries no
identity, any other payload is malformed; impersonation is always denied. -/
def mgrDeny : ImpersonationManager :=
  { getUserIdentity := fun o =>
      if o = 0 then .ok "carol"
      else if o = 1 then .ok NoUserIdentity
      else .error "malformed"
    impersonate := fun _ => .error "denied" }

/-- Concrete manager: payload 0 carries identity "alice", payload 1 carries no
identity, any other payload is malformed; impersonation always succeeds. -/
def mgrAllow : ImpersonationManager :=
  { getUserIdentity := fun o =>
      if o = 0 then .ok "alice"
      else if o = 1 then .ok NoUserIdentity
      else .error "malformed"
    impersonate := fun identity => .ok (.impersonated identity) }

/-- A job whose payload carries an identity under both concrete managers. -/
def jobIdent : K8sJob := { obj := 0, handlerFunc := 0 }

/-- A job whose payload carries no identity under both concrete managers. -/
def jobPlain : K8sJob := { obj := 1, handlerFunc := 0 }

/-- A job with a malformed payload under both concrete managers. -/
def jobBad : K8sJob := { obj := 2, handlerFunc := 0 }

/-- Fresh pool over the denying manager. -/
def poolDeny : PoolState := newK8sWorkerPool cfg0 mgrDeny 10

/-- Fresh pool over the allowing manager. -/
def poolAllow : PoolState := newK8sWorkerPool cfg0 mgrAllow 10

end Fixtures

/-- C6: on a job whose identity extraction fails, RunAsync logs the error and
returns with the pool state exactly unchanged — no enqueue on any queue, no
change to the lane map, and no error propagated to the caller. -/
theorem runAsync_extraction_failure_drops_job (s : PoolState) (j : K8sJob)
    (e : String) (h : s.mgr.getUserIdentity j.obj = .error e) :
    RunAsync s j = .done s [.logError "failed to get user identity from obj"] := by
  unfold RunAsync
  rw [h]

/-- Witness for C6 at a concrete malformed job. -/
theorem runAsync_extraction_failure_drops_job_witness :
    RunAsync poolDeny jobBad =
      .done poolDeny [.logError "failed to get user identity from obj"] :=
  runAsync_extraction_failure_drops_job poolDeny jobBad "malformed" rfl

/-- C7: on a job whose extracted identity is the sentinel, RunAsync appends
the job to the default jobs queue and returns; the lane map and every lane
queue are untouched and the trace shows no lock acquire/release at all. -/
theorem runAsync_no_identity_default_queue (s : PoolState) (j : K8sJob)
    (h : s.mgr.getUserIdentity j.obj = .ok NoUserIdentity) :
    RunAsync s j =
      .done { s with jobsQueue := s.jobsQueue ++ [j] } [.enqueueDefault j] := by
  unfold RunAsync
  rw [h]
  simp

/-- Witness for C7 at a concrete no-identity job. -/
theorem runAsync_no_identity_default_queue_witness :
    RunAsync poolDeny jobPlain =
      .done { poolDeny with jobsQueue := poolDeny.jobsQueue ++ [jobPlain] }
        [.enqueueDefault jobPlain] :=
  runAsync_no_identity_default_queue poolDeny jobPlain rfl

/-- C1 (bug evidence): on the path where no lane exists and the session
factory fails, RunAsync does return (it is not blocked) after logging and
dropping the job and without creating the lane — but it returns with
`impersonationWorkersLock` still held: the source returns from inside the
locked section without calling Unlock. -/
theorem runAsync_factory_failure_returns_with_lock_held :
    (RunAsync poolDeny jobIdent).isBlocked = false ∧
    (RunAsync poolDeny jobIdent).trace =
      [.lockAcquire, .impersonateCall "carol", .logError "failed to create user worker"] ∧
    (RunAsync poolDeny jobIdent).state.jobsQueue = [] ∧
    laneExists (RunAsync poolDeny jobIdent).state "carol" = false ∧
    (RunAsync poolDeny jobIdent).state.lockHeld = true := by
  refine ⟨rfl, by decide, rfl, by decide, rfl⟩

/-- C3 (bug evidence): after a failed lane creation the lane map indeed has no
entry for the identity, but a second submission for the same identity blocks
forever on `Lock()` (empty trace: the session factory is never invoked again)
instead of retrying lane creation. -/
theorem factory_failure_then_resubmit_blocks :
    mapGet (RunAsync poolDeny jobIdent).state.impersonationWorkersQueues "carol" = none ∧
    (RunAsync (RunAsync poolDeny jobIdent).state jobIdent).isBlocked = true ∧
    (RunAsync (RunAsync poolDeny jobIdent).state jobIdent).trace = [] := by
  refine ⟨by decide, rfl, rfl⟩

/-- C5: readEnvVars falls back to the default 10 (with a logged notice) when
the variable is unset, when Atoi fails, and when the parsed value is below 1;
it returns the parsed value whenever Atoi succeeds with a value of at least 1. -/
theorem readEnvVars_contract :
    ((readEnvVars none).1 = 10 ∧ (readEnvVars none).2 ≠ []) ∧
    (∀ s e, goAtoi s = .error e →
      (readEnvVars (some s)).1 = 10 ∧ (readEnvVars (some s)).2 ≠ []) ∧
    (∀ s v, goAtoi s = .ok v → v < 1 →
      (readEnvVars (some s)).1 = 10 ∧ (readEnvVars (some s)).2 ≠ []) ∧
    (∀ s v, goAtoi s = .ok v → 1 ≤ v → (readEnvVars (some s)).1 = v) := by
  refine ⟨⟨rfl, by simp [readEnvVars]⟩, ?_, ?_, ?_⟩
  · intro s e h
    simp [readEnvVars, h, defaultK8sClientsPoolSize]
  · intro s v h hv
    simp [readEnvVars, h, hv, defaultK8sClientsPoolSize]
  · intro s v h hv
    have : ¬ v < 1 := by omega
    simp [readEnvVars, h, this]

/-- Witness for C5 at the concrete values "0", "-3", "abc", "5". -/
theorem readEnvVars_contract_witness :
    (readEnvVars (some "0")).1 = 10 ∧ (readEnvVars (some "-3")).1 = 10 ∧
    (readEnvVars (some "abc")).1 = 10 ∧ (readEnvVars (some "5")).1 = 5 :=
  ⟨(readEnvVars_contract.2.2.1 "0" 0 (by rfl) (by decide)).1,
   (readEnvVars_contract.2.2.1 "-3" (-3) (by rfl) (by decide)).1,
   (readEnvVars_contract.2.1 "abc" "invalid syntax" (by rfl)).1,
   readEnvVars_contract.2.2.2 "5" 5 (by rfl) (by decide)⟩

/-- C4: in every RunAsync call, any enqueue onto a lane queue happens with the
lane lock no longer held, and only after a release of that lock earlier in the
same call. -/
theorem lock_released_before_lane_enqueue (s : PoolState) (j : K8sJob) :
    noLaneEnqueueWhileHeld (if s.lockHeld then 1 else 0) (RunAsync s j).trace = true ∧
    releaseBeforeLaneEnqueue false (RunAsync s j).trace = true := by
  unfold RunAsync
  cases hid : s.mgr.getUserIdentity j.obj with
  | error e =>
      simp [RunOutcome.trace, noLaneEnqueueWhileHeld, releaseBeforeLaneEnqueue]
  | ok uid =>
      by_cases hni : uid = NoUserIdentity
      · simp [hni, RunOutcome.trace, noLaneEnqueueWhileHeld, releaseBeforeLaneEnqueue]
      · by_cases hl : s.lockHeld
        · simp [hni, hl, RunOutcome.trace, noLaneEnqueueWhileHeld,
            releaseBeforeLaneEnqueue]
        · cases hget : mapGet s.impersonationWorkersQueues uid with
          | some q =>
              simp [hni, hl, hget, RunOutcome.trace, noLaneEnqueueWhileHeld,
                releaseBeforeLaneEnqueue]
          | none =>
              cases himp : s.mgr.impersonate uid with
              | error e =>
                  simp [hni, hl, hget, createUserWorker, himp, RunOutcome.trace,
                    noLaneEnqueueWhileHeld, releaseBeforeLaneEnqueue]
              | ok c =>
                  simp [hni, hl, hget, createUserWorker, himp, mapGet_mapSet_self,
                    RunOutcome.trace, noLaneEnqueueWhileHeld, releaseBeforeLaneEnqueue]

/-- C9: if a lane is created while `pool.ctx` is still unassigned (Start not
yet run), the lane worker is started with the nil context: the trace records
`startWorker _ none`. -/
theorem lane_worker_started_with_nil_ctx (s : PoolState) (j : K8sJob)
    (uid : String) (c : K8sClient)
    (hctx : s.ctx = none) (hl : s.lockHeld = false)
    (hid : s.mgr.getUserIdentity j.obj = .ok uid) (hni : uid ≠ NoUserIdentity)
    (habs : mapGet s.impersonationWorkersQueues uid = none)
    (himp : s.mgr.impersonate uid = .ok c) :
    (RunAsync s j).trace =
      [.lockAcquire, .impersonateCall uid,
       .startWorker { workerID := 1, client := c, queue := QueueRef.laneQueue uid } none,
       .lockRelease, .enqueueLane uid j] := by
  unfold RunAsync
  rw [hid]
  simp [hni, hl, habs, createUserWorker, himp, hctx, mapGet_mapSet_self,
    newK8sWorkerWithClient, RunOutcome.trace]

/-- Witness for C9: a fresh pool (never started, ctx = none) creating the
"alice" lane starts its worker with context none. -/
theorem lane_worker_started_with_nil_ctx_witness :
    (RunAsync poolAllow jobIdent).trace =
      [.lockAcquire, .impersonateCall "alice",
       .startWorker
         { workerID := 1, client := .impersonated "alice",
           queue := QueueRef.laneQueue "alice" } none,
       .lockRelease, .enqueueLane "alice" jobIdent] :=
  lane_worker_started_with_nil_ctx poolAllow jobIdent "alice" (.impersonated "alice")
    rfl rfl rfl (by decide) rfl rfl

section StartLemmas

theorem startWorkersLoop_ok (fail : Nat → Option String) (cfg : RestConfig)
    (ctx : Ctx) :
    ∀ (r i : Nat), (∀ k, k < r → fail (i + k) = none) →
      startWorkersLoop fail cfg ctx i r = (defaultStartEvents cfg ctx i r, none) := by
  intro r
  induction r with
  | zero => intro i _; rfl
  | succ r ih =>
      intro i h
      have h0 : fail i = none := by simpa using h 0 (Nat.succ_pos r)
      have hrest : ∀ k, k < r → fail (i + 1 + k) = none := by
        intro k hk
        have := h (k + 1) (by omega)
        simpa [Nat.add_assoc, Nat.add_comm 1 k] using this
      simp [startWorkersLoop, newK8sWorker, h0, defaultStartEvents, ih (i + 1) hrest]

theorem startWorkersLoop_fail (fail : Nat → Option String) (cfg : RestConfig)
    (ctx : Ctx) :
    ∀ (d r i : Nat) (e : String), (∀ k, k < d → fail (i + k) = none) →
      fail (i + d) = some e → d < r →
      startWorkersLoop fail cfg ctx i r =
        (defaultStartEvents cfg ctx i d,
         some ("failed to start k8s workers pool - " ++ e)) := by
  intro d
  induction d with
  | zero =>
      intro r i e _ hfail hlt
      cases r with
      | zero => omega
      | succ r =>
          have h0 : fail i = some e := by simpa using hfail
          simp [startWorkersLoop, newK8sWorker, h0, defaultStartEvents]
  | succ d ih =>
      intro r i e hok hfail hlt
      cases r with
      | zero => omega
      | succ r =>
          have h0 : fail i = none := by simpa using hok 0 (Nat.succ_pos d)
          have hok' : ∀ k, k < d → fail (i + 1 + k) = none := by
            intro k hk
            have := hok (k + 1) (by omega)
            simpa [Nat.add_assoc, Nat.add_comm 1 k] using this
          have hfail' : fail (i + 1 + d) = some e := by
            have : i + 1 + d = i + (d + 1) := by omega
            rw [this]; exact hfail
          simp [startWorkersLoop, newK8sWorker, h0, defaultStartEvents,
            ih r (i + 1) e hok' hfail' (by omega)]

theorem startedWorkers_defaultStartEvents_length (cfg : RestConfig) (ctx : Ctx) :
    ∀ (r i : Nat), (startedWorkers (defaultStartEvents cfg ctx i r)).length = r := by
  intro r
  induction r with
  | zero => intro i; rfl
  | succ r ih =>
      intro i
      simp [defaultStartEvents, startedWorkers, List.filterMap]
      have := ih (i + 1)
      simpa [startedWorkers] using this

theorem startedWorkers_defaultStartEvents_shape (cfg : RestConfig) (ctx : Ctx) :
    ∀ (r i : Nat) (p : K8sWorker × Option Ctx),
      p ∈ startedWorkers (defaultStartEvents cfg ctx i r) →
      p.1.client = K8sClient.fromConfig cfg ∧ p.1.queue = QueueRef.defaultQueue ∧
        p.2 = some ctx := by
  intro r
  induction r with
  | zero => intro i p hp; simp [defaultStartEvents, startedWorkers] at hp
  | succ r ih =>
      intro i p hp
      have hcons : startedWorkers (defaultStartEvents cfg ctx i (r + 1)) =
          ({ workerID := i, client := .fromConfig cfg, queue := .defaultQueue },
            some ctx) :: startedWorkers (defaultStartEvents cfg ctx (i + 1) r) := rfl
      rw [hcons, List.mem_cons] at hp
      rcases hp with hp | hp
      · subst hp; exact ⟨rfl, rfl, rfl⟩
      · exact ih (i + 1) p hp

theorem closeDefaultQueue_not_in_defaultStartEvents (cfg : RestConfig) (ctx : Ctx) :
    ∀ (r i : Nat), Event.closeDefaultQueue ∉ defaultStartEvents cfg ctx i r := by
  intro r
  induction r with
  | zero => intro i; simp [defaultStartEvents]
  | succ r ih => intro i; simp [defaultStartEvents, ih (i + 1)]

end StartLemmas

/-- C8: when every default-worker construction succeeds, Start spawns exactly
`poolSize` default workers (each bound to a client from the shared kube config
and to the default jobs queue, started with the given context), then waits
for the cancellation signal, closes the default queue after it fires, and
returns nil; and when some construction fails (the first failure being at
loop index 1 + d), Start returns the wrapped error to its caller. -/
theorem start_contract (fail : Nat → Option String) (s : PoolState) (ctx : Ctx) :
    ((∀ i, fail i = none) →
      Start fail s ctx =
        ({ s with ctx := some ctx, jobsQueueClosed := true },
         defaultStartEvents s.kubeConfig ctx 1 s.poolSize ++
           [.waitDone, .closeDefaultQueue], none) ∧
      (startedWorkers (Start fail s ctx).2.1).length = s.poolSize ∧
      (∀ p ∈ startedWorkers (Start fail s ctx).2.1,
        p.1.client = K8sClient.fromConfig s.kubeConfig ∧
          p.1.queue = QueueRef.defaultQueue ∧ p.2 = some ctx)) ∧
    (∀ (d : Nat) (e : String), (∀ k, k < d → fail (1 + k) = none) →
      fail (1 + d) = some e → d < s.poolSize →
      (Start fail s ctx).2.2 = some ("failed to start k8s workers pool - " ++ e)) := by
  constructor
  · intro hok
    have hloop := startWorkersLoop_ok fail s.kubeConfig ctx s.poolSize 1
      (fun k _ => hok (1 + k))
    have hstart : Start fail s ctx =
        ({ s with ctx := some ctx, jobsQueueClosed := true },
         defaultStartEvents s.kubeConfig ctx 1 s.poolSize ++
           [.waitDone, .closeDefaultQueue], none) := by
      simp [Start, hloop]
    refine ⟨hstart, ?_, ?_⟩
    · rw [hstart]
      simp only [startedWorkers, List.filterMap_append]
      have h1 := startedWorkers_defaultStartEvents_length s.kubeConfig ctx s.poolSize 1
      simp only [startedWorkers] at h1
      simp [h1, List.filterMap]
    · rw [hstart]
      intro p hp
      simp only [startedWorkers, List.filterMap_append, List.mem_append] at hp
      rcases hp with hp | hp
      · exact startedWorkers_defaultStartEvents_shape s.kubeConfig ctx s.poolSize 1 p hp
      · simp [List.filterMap] at hp
  · intro d e hok hfail hlt
    have hloop := startWorkersLoop_fail fail s.kubeConfig ctx d s.poolSize 1 e hok hfail hlt
    simp [Start, hloop]

/-- Witness for C8 at a concrete pool of size 10 with an always-succeeding
constructor, and at a constructor failing on its second attempt. -/
theorem start_contract_witness :
    (Start (fun _ => none) poolAllow ctx0).2.2 = none ∧
    (startedWorkers (Start (fun _ => none) poolAllow ctx0).2.1).length = 10 ∧
    (Start (fun i => if i = 2 then some "boom" else none) poolAllow ctx0).2.2 =
      some "failed to start k8s workers pool - boom" := by
  refine ⟨?_, ?_, ?_⟩
  · rw [((start_contract (fun _ => none) poolAllow ctx0).1 (fun _ => rfl)).1]
  · exact ((start_contract (fun _ => none) poolAllow ctx0).1 (fun _ => rfl)).2.1
  · exact (start_contract (fun i => if i = 2 then some "boom" else none) poolAllow
      ctx0).2 1 "boom" (by intro k hk; interval_cases k; all_goals rfl) rfl (by decide)

/-- C10: when the construction of the (1 + d)-th default worker fails, Start
returns the error with the pool state exactly as it was: the default jobs
queue is not closed, `pool.ctx` is still unassigned, and the d previously
constructed default workers have been started against the (still open)
default queue and are never stopped by this path (no closeDefaultQueue event). -/
theorem start_failure_frame (fail : Nat → Option String) (s : PoolState) (ctx : Ctx)
    (d : Nat) (e : String)
    (hok : ∀ k, k < d → fail (1 + k) = none) (hfail : fail (1 + d) = some e)
    (hlt : d < s.poolSize) (hq : s.jobsQueueClosed = false) (hc : s.ctx = none) :
    (Start fail s ctx).1 = s ∧
    (Start fail s ctx).1.jobsQueueClosed = false ∧
    (Start fail s ctx).1.ctx = none ∧
    (Start fail s ctx).2.2 = some ("failed to start k8s workers pool - " ++ e) ∧
    (startedWorkers (Start fail s ctx).2.1).length = d ∧
    (∀ p ∈ startedWorkers (Start fail s ctx).2.1,
      p.1.queue = QueueRef.defaultQueue ∧ p.2 = some ctx) ∧
    Event.closeDefaultQueue ∉ (Start fail s ctx).2.1 := by
  have hloop := startWorkersLoop_fail fail s.kubeConfig ctx d s.poolSize 1 e hok hfail hlt
  have hstart : Start fail s ctx =
      (s, defaultStartEvents s.kubeConfig ctx 1 d,
       some ("failed to start k8s workers pool - " ++ e)) := by
    simp [Start, hloop]
  refine ⟨by rw [hstart], by rw [hstart]; exact hq, by rw [hstart]; exact hc,
    by rw [hstart], ?_, ?_, ?_⟩
  · rw [hstart]
    exact startedWorkers_defaultStartEvents_length s.kubeConfig ctx d 1
  · rw [hstart]
    intro p hp
    exact (startedWorkers_defaultStartEvents_shape s.kubeConfig ctx d 1 p hp).2
  · rw [hstart]
    exact closeDefaultQueue_not_in_defaultStartEvents s.kubeConfig ctx d 1

/-- Witness for C10: pool of size 10, constructor failing on attempt 3 (d = 2). -/
theorem start_failure_frame_witness :
    (Start (fun i => if i = 3 then some "boom" else none) poolAllow ctx0).1.jobsQueueClosed
        = false ∧
    (Start (fun i => if i = 3 then some "boom" else none) poolAllow ctx0).1.ctx = none ∧
    (Start (fun i => if i = 3 then some "boom" else none) poolAllow ctx0).2.2 =
      some "failed to start k8s workers pool - boom" ∧
    (startedWorkers
        (Start (fun i => if i = 3 then some "boom" else none) poolAllow ctx0).2.1).length
      = 2 := by
  have h := start_failure_frame (fun i => if i = 3 then some "boom" else none)
    poolAllow ctx0 2 "boom" (by intro k hk; interval_cases k; all_goals rfl) rfl
    (by decide) rfl rfl
  exact ⟨h.2.1, h.2.2.1, h.2.2.2.1, h.2.2.2.2.1⟩

section LaneLemmas

theorem laneCreateCount_append (identity : String) (a b : List Event) :
    laneCreateCount identity (a ++ b) =
      laneCreateCount identity a + laneCreateCount identity b := by
  simp [laneCreateCount, List.filter_append]

theorem runAsync_step_lane_facts (s : PoolState) (j : K8sJob) (identity : String) :
    laneCreateCount identity (RunAsync s j).trace ≤ 1 ∧
    (laneExists s identity = true →
      laneCreateCount identity (RunAsync s j).trace = 0 ∧
      laneExists (RunAsync s j).state identity = true) ∧
    (laneCreateCount identity (RunAsync s j).trace = 0 →
      laneExists (RunAsync s j).state identity = laneExists s identity) ∧
    (1 ≤ laneCreateCount identity (RunAsync s j).trace →
      laneExists (RunAsync s j).state identity = true) := by
  unfold RunAsync
  cases hid : s.mgr.getUserIdentity j.obj with
  | error e =>
      simp [RunOutcome.trace, RunOutcome.state, laneCreateCount, isLaneCreate, laneExists]
  | ok uid =>
      by_cases hni : uid = NoUserIdentity
      · simp [hni, RunOutcome.trace, RunOutcome.state, laneCreateCount, isLaneCreate,
          laneExists]
      · by_cases hl : s.lockHeld
        · simp [hni, hl, RunOutcome.trace, RunOutcome.state, laneCreateCount,
            isLaneCreate, laneExists]
        · cases hget : mapGet s.impersonationWorkersQueues uid with
          | some q =>
              by_cases hiq : identity = uid
              · subst hiq
                simp [hni, hl, hget, RunOutcome.trace, RunOutcome.state,
                  laneCreateCount, isLaneCreate, laneExists, mapGet_mapSet_self]
              · simp [hni, hl, hget, RunOutcome.trace, RunOutcome.state,
                  laneCreateCount, isLaneCreate, laneExists,
                  mapGet_mapSet_ne _ _ _ _ hiq]
          | none =>
              cases himp : s.mgr.impersonate uid with
              | error e =>
                  simp [hni, hl, hget, createUserWorker, himp, RunOutcome.trace,
                    RunOutcome.state, laneCreateCount, isLaneCreate, laneExists]
              | ok c =>
                  by_cases hiq : identity = uid
                  · subst hiq
                    simp [hni, hl, hget, createUserWorker, himp, RunOutcome.trace,
                      RunOutcome.state, laneCreateCount, isLaneCreate, laneExists,
                      newK8sWorkerWithClient, mapGet_mapSet_self]
                  · have hqi : uid ≠ identity := fun h => hiq h.symm
                    simp [hni, hl, hget, createUserWorker, himp, RunOutcome.trace,
                      RunOutcome.state, laneCreateCount, isLaneCreate, laneExists,
                      newK8sWorkerWithClient, mapGet_mapSet_self, hiq, hqi,
                      mapGet_mapSet_ne _ _ _ _ hiq]

theorem runList_laneCreate_zero (identity : String) :
    ∀ (jobs : List K8sJob) (s : PoolState), laneExists s identity = true →
      laneCreateCount identity (runList s jobs).2 = 0 ∧
      laneExists (runList s jobs).1 identity = true := by
  intro jobs
  induction jobs with
  | nil => intro s h; exact ⟨rfl, h⟩
  | cons j rest ih =>
      intro s h
      have hstep := (runAsync_step_lane_facts s j identity).2.1 h
      have hrest := ih (RunAsync s j).state hstep.2
      constructor
      · simp [runList, laneCreateCount_append, hstep.1, hrest.1]
      · simpa [runList] using hrest.2

theorem runList_laneCreate_le_one (identity : String) :
    ∀ (jobs : List K8sJob) (s : PoolState), laneExists s identity = false →
      laneCreateCount identity (runList s jobs).2 ≤ 1 := by
  intro jobs
  induction jobs with
  | nil => intro s _; simp [runList, laneCreateCount]
  | cons j rest ih =>
      intro s h
      have hstep := runAsync_step_lane_facts s j identity
      rcases Nat.eq_zero_or_pos (laneCreateCount identity (RunAsync s j).trace)
        with h0 | h1
      · have hexists : laneExists (RunAsync s j).state identity = false := by
          rw [hstep.2.2.1 h0, h]
        have hrest := ih (RunAsync s j).state hexists
        simp only [runList, laneCreateCount_append, h0, Nat.zero_add]
        exact hrest
      · have hexists : laneExists (RunAsync s j).state identity = true :=
          hstep.2.2.2 h1
        have hzero := (runList_laneCreate_zero identity rest (RunAsync s j).state
          hexists).1
        have hle := hstep.1
        simp only [runList, laneCreateCount_append, hzero]
        omega

end LaneLemmas

/-- C2: a lane is created at most once per identity across any sequence of
RunAsync calls — zero times if the lane already exists (and then forever after
its creation), at most once from a state without it; and a call that finds
the lane present performs no factory call and no map insertion: its trace is
exactly lock, unlock, enqueue, the existing queue just gains the job, and
every other identity's map entry is untouched. -/
theorem lane_created_at_most_once :
    (∀ (s : PoolState) (jobs : List K8sJob) (identity : String),
      laneExists s identity = false →
      laneCreateCount identity (runList s jobs).2 ≤ 1) ∧
    (∀ (s : PoolState) (jobs : List K8sJob) (identity : String),
      laneExists s identity = true →
      laneCreateCount identity (runList s jobs).2 = 0) ∧
    (∀ (s : PoolState) (j : K8sJob) (identity : String) (q : List K8sJob),
      s.lockHeld = false → s.mgr.getUserIdentity j.obj = .ok identity →
      identity ≠ NoUserIdentity →
      mapGet s.impersonationWorkersQueues identity = some q →
      (RunAsync s j).trace = [.lockAcquire, .lockRelease, .enqueueLane identity j] ∧
      mapGet (RunAsync s j).state.impersonationWorkersQueues identity =
        some (q ++ [j]) ∧
      ∀ id2, id2 ≠ identity →
        mapGet (RunAsync s j).state.impersonationWorkersQueues id2 =
          mapGet s.impersonationWorkersQueues id2) := by
  refine ⟨fun s jobs identity h => runList_laneCreate_le_one identity jobs s h,
    fun s jobs identity h => (runList_laneCreate_zero identity jobs s h).1, ?_⟩
  intro s j identity q hl hid hni hget
  have hrun : RunAsync s j =
      .done
        { s with
            lockHeld := false
            impersonationWorkersQueues :=
              mapSet s.impersonationWorkersQueues identity (q ++ [j]) }
        [.lockAcquire, .lockRelease, .enqueueLane identity j] := by
    unfold RunAsync
    rw [hid]
    simp [hni, hl, hget]
  refine ⟨by rw [hrun]; rfl, ?_, ?_⟩
  · rw [hrun]
    exact mapGet_mapSet_self _ _ _
  · intro id2 hid2
    rw [hrun]
    exact mapGet_mapSet_ne _ _ _ _ hid2

/-- Witness for C2: three submissions for "alice" on a fresh pool create the
lane at most once, and the second submission on the post-creation state
reuses the lane: lock, unlock, enqueue only. -/
theorem lane_created_at_most_once_witness :
    laneCreateCount "alice" (runList poolAllow [jobIdent, jobIdent, jobIdent]).2 ≤ 1 ∧
    (RunAsync (RunAsync poolAllow jobIdent).state jobIdent).trace =
      [.lockAcquire, .lockRelease, .enqueueLane "alice" jobIdent] := by
  constructor
  · exact lane_created_at_most_once.1 poolAllow [jobIdent, jobIdent, jobIdent]
      "alice" rfl
  · exact (lane_created_at_most_once.2.2 (RunAsync poolAllow jobIdent).state
      jobIdent "alice" [jobIdent] rfl rfl (by decide) (by decide)).1

end LeafHub
